import Mathlib

/-!
Shallow embedding of the command-execution core of the bsh package
(`cmd.go`, together with the `Bsh` context: `Panic`, `SetErrorHandler`,
`Verbosef`, `Warnf`).

Modelling conventions:
* Go `error` values reaching `extractExitStatus` are either an
  `exec.ExitError` (detected by `errors.As`, carrying `ExitCode()`) or any
  other error; `GoError` has one constructor for each shape.
* The OS boundary (the external `commandline.Parse` collaborator, process
  creation/wait, the bytes the child writes to its stdout/stderr bindings,
  `os.Environ()`) is a parameter `Oracle`.
* Side effects (verbose/warn logging, spawning, stream writes, writes to the
  bound exit-status cell, invoking the error handler, panicking) are recorded
  as an `Event` trace; a Go `panic` that propagates out is `Except.error`.
* The error handler installed with `SetErrorHandler` is abstract: it is
  identified by a number and, when invoked, records an event and returns.
-/

namespace BshModel

/-- A Go error as seen by `extractExitStatus`: either (wrapping) an
`exec.ExitError` whose `ExitCode()` is `code`, or any other error. -/
inductive GoError where
  | exitErr (code : Int)
  | plain (msg : String)
deriving DecidableEq, Repr

/-- An `io.Reader` bound as stdin, identified abstractly by name. -/
structure Reader where
  name : String
deriving DecidableEq, Repr

/-- An `io.Writer` bound as stdout/stderr: either an ambient writer
identified by name, or the local `strings.Builder` that `RunStr`/`BashStr`
allocate. -/
inductive Writer where
  | named (name : String)
  | builder
deriving DecidableEq, Repr

/-- Which of the child's two output streams a write call targets. -/
inductive StreamSel where
  | toOut
  | toErr
deriving DecidableEq, Repr

/-- The `Bsh` context fields the command core reads: the optional error
handler set by `SetErrorHandler` (`fnErr`, abstract handler id; `none` means
panic) and whether `IsVerbose()` reports true. -/
structure Bsh where
  fnErr : Option Nat
  verbose : Bool
deriving DecidableEq, Repr

/-- The `Command` struct of `cmd.go` (field `in` is `inp`: `in` is a Lean
keyword; `exitStatus *int` is the id of the bound external cell, `none` when
nil; `b` is the owning context). -/
structure Command where
  raw : String
  dir : String
  env : List String
  inp : Reader
  out : Writer
  err : Writer
  exitStatus : Option Nat
  b : Bsh
deriving DecidableEq, Repr

/-- One `exec.Cmd` as configured at the moment `cmd.Run()` is called:
executable, argv tail, `Dir`, `Env` (`none` when left nil, i.e. inherit),
and the three stream bindings. -/
structure Spawn where
  exe : String
  args : List String
  dir : String
  env : Option (List String)
  stdin : Reader
  stdout : Writer
  stderr : Writer
deriving DecidableEq, Repr

/-- One observable side effect of the command core. -/
inductive Event where
  | verboseLog (msg : String)
  | warnLog (msg : String)
  | spawned (sp : Spawn)
  | wrote (w : Writer) (chunk : String)
  | sinkWrote (cell : Nat) (n : Int)
  | handlerCalled (h : Nat) (e : GoError)
  | panicked (e : GoError)
deriving DecidableEq, Repr

/-- The OS / external-collaborator boundary: `parse` is
`commandline.Parse`, `ambientEnv` is `os.Environ()`, `waitResult` is the
error returned by `exec.Cmd.Run` for a given spawn, and `writes` is the
sequence of write calls the child makes to its stdout/stderr bindings. -/
structure Oracle where
  parse : String → Except GoError (List String)
  ambientEnv : List String
  waitResult : Spawn → Option GoError
  writes : Spawn → List (StreamSel × String)

/-- The writer a child's write call lands on, given its spawn bindings. -/
def selTarget (sp : Spawn) : StreamSel → Writer
  | .toOut => sp.stdout
  | .toErr => sp.stderr

/-- `extractExitStatus` of `cmd.go`: nil error yields `(0, nil)`; an
`exec.ExitError` yields `(ExitCode(), nil)`; any other error yields
`(-1, err)`. -/
def extractExitStatus : Option GoError → Int × Option GoError
  | none => (0, none)
  | some (GoError.exitErr code) => (code, none)
  | some (GoError.plain msg) => (-1, some (GoError.plain msg))

/-- `Bsh.Verbosef`: echoes only when verbose mode is on. -/
def verboseEvs (b : Bsh) (msg : String) : List Event :=
  if b.verbose then [Event.verboseLog msg] else []

/-- The `+Env` verbose log emitted inside `if len(c.env) > 0`. -/
def envLogEvs (c : Command) : List Event :=
  if c.env.length > 0 then verboseEvs c.b ("+Env: " ++ toString c.env) else []

/-- `cmd.Env`: `append(os.Environ(), c.env...)` when `len(c.env) > 0`,
otherwise left nil (inherit). -/
def envFor (o : Oracle) (c : Command) : Option (List String) :=
  if c.env.length > 0 then some (o.ambientEnv ++ c.env) else none

/-- The tail of `run`/`bash` after `cmd.Run()` returns `werr`:
`if c.exitStatus != nil { n, e := extractExitStatus(err); if e == nil { *c.exitStatus = n } }`. -/
def sinkEvs (c : Command) (werr : Option GoError) : List Event :=
  match c.exitStatus with
  | none => []
  | some u =>
    match extractExitStatus werr with
    | (n, none) => [Event.sinkWrote u n]
    | (_, some _) => []

/-- Result of the `run`/`bash` helpers: the returned `error` plus the event
trace. -/
structure RunOut where
  err : Option GoError
  events : List Event
deriving DecidableEq, Repr

/-- The `exec.Cmd` that `run` configures from the parsed argv: executable
`args[0]`, arguments `args[1:]` (Go would panic on an empty token list;
`headD`/`tail` is the total rendering of that indexing), plus `Dir`, `Env`
and the three stream bindings. -/
def runSp (c : Command) (o : Oracle) (args : List String) : Spawn :=
  { exe := args.headD "", args := args.tail, dir := c.dir, env := envFor o c,
    stdin := c.inp, stdout := c.out, stderr := c.err }

/-- The `exec.Cmd` that `bash` configures: `exec.Command("bash", "-c", c.raw)`
plus `Dir`, `Env` and the three stream bindings. -/
def bashSp (c : Command) (o : Oracle) : Spawn :=
  { exe := "bash", args := ["-c", c.raw], dir := c.dir, env := envFor o c,
    stdin := c.inp, stdout := c.out, stderr := c.err }

/-- The write events the child process performs against its bindings. -/
def wroteEvs (o : Oracle) (sp : Spawn) : List Event :=
  (o.writes sp).map fun p => Event.wrote (selTarget sp p.1) p.2

/-- The `run` helper of `cmd.go` (Direct Strategy): parse `raw`; on parse
error return it at once; otherwise log, build the `exec.Cmd`, run it, and
write the sink. -/
def Command.run (c : Command) (o : Oracle) : RunOut :=
  match o.parse c.raw with
  | Except.error e => { err := some e, events := [] }
  | Except.ok args =>
    { err := o.waitResult (runSp c o args),
      events :=
        verboseEvs c.b ("Exec: " ++ c.raw) ++
        envLogEvs c ++
        (Event.spawned (runSp c o args) ::
          (wroteEvs o (runSp c o args) ++
            sinkEvs c (o.waitResult (runSp c o args)))) }

/-- The `bash` helper of `cmd.go` (Shell-Delegated Strategy): no parsing;
spawns `bash` with the two fixed arguments `-c` and `raw`. -/
def Command.bash (c : Command) (o : Oracle) : RunOut :=
  { err := o.waitResult (bashSp c o),
    events :=
      verboseEvs c.b ("Bash: " ++ c.raw) ++
      envLogEvs c ++
      (Event.spawned (bashSp c o) ::
        (wroteEvs o (bashSp c o) ++
          sinkEvs c (o.waitResult (bashSp c o)))) }

/-- `Bsh.Panic`: call the installed handler (which returns) when one is set,
else `panic(err)` (modelled as `Except.error`). -/
def Bsh.Panic (b : Bsh) (e : GoError) : Except GoError Unit × List Event :=
  match b.fnErr with
  | some h => (Except.ok (), [Event.handlerCalled h e])
  | none => (Except.error e, [Event.panicked e])

/-- `Bsh.SetErrorHandler`: logs "Error handler changed" via `Verbose` and
overwrites the single `fnErr` slot. -/
def Bsh.SetErrorHandler (b : Bsh) (fn : Option Nat) : Bsh × List Event :=
  ({ b with fnErr := fn }, verboseEvs b "Error handler changed")

/-- `c.out = &b; c.err = &b` of `RunStr`/`BashStr`: both output bindings
rebound to the freshly allocated `strings.Builder`. -/
def Command.withOutErrBuilder (c : Command) : Command :=
  { c with out := Writer.builder, err := Writer.builder }

/-- The content of the local `strings.Builder` after a run: the
concatenation of every chunk written to the `builder` binding. -/
def builderContent (evs : List Event) : String :=
  evs.foldr (fun ev acc =>
    match ev with
    | Event.wrote Writer.builder s => s ++ acc
    | _ => acc) ""

/-- The concatenation of every chunk the child writes, to either stream. -/
def combinedWrites (o : Oracle) (sp : Spawn) : String :=
  ((o.writes sp).map Prod.snd).foldr (fun a b => a ++ b) ""

/-- `Command.Run`: run; on error, `Warnf` then `Panic`. -/
def Command.Run (c : Command) (o : Oracle) : Except GoError Unit × List Event :=
  let r := c.run o
  match r.err with
  | none => (Except.ok (), r.events)
  | some e =>
    let p := c.b.Panic e
    (p.1, r.events ++ (Event.warnLog ("unexpected error in " ++ c.raw) :: p.2))

/-- `Command.RunStr`: rebind both outputs to a fresh builder, run; on error,
`Warnf` then `Panic`; if control returns, return the builder's content. -/
def Command.RunStr (c : Command) (o : Oracle) : Except GoError String × List Event :=
  let c2 := c.withOutErrBuilder
  let r := c2.run o
  match r.err with
  | none => (Except.ok (builderContent r.events), r.events)
  | some e =>
    let p := c2.b.Panic e
    let evs := r.events ++ (Event.warnLog ("unexpected error in " ++ c.raw) :: p.2)
    match p.1 with
    | Except.ok _ => (Except.ok (builderContent r.events), evs)
    | Except.error e2 => (Except.error e2, evs)

/-- `Command.RunErr`: return the helper's error untouched. -/
def Command.RunErr (c : Command) (o : Oracle) : Option GoError × List Event :=
  let r := c.run o
  (r.err, r.events)

/-- `Command.RunExitStatus`: extract `(n, err)` from the run; on non-nil
`err`, `Warnf` then `Panic`; if control returns, return `n`. -/
def Command.RunExitStatus (c : Command) (o : Oracle) : Except GoError Int × List Event :=
  let r := c.run o
  match extractExitStatus r.err with
  | (n, none) => (Except.ok n, r.events)
  | (n, some e) =>
    let p := c.b.Panic e
    let evs := r.events ++ (Event.warnLog ("unexpected error in " ++ c.raw) :: p.2)
    match p.1 with
    | Except.ok _ => (Except.ok n, evs)
    | Except.error e2 => (Except.error e2, evs)

/-- `Command.Bash`: bash; on error, `Warnf` then `Panic`. -/
def Command.Bash (c : Command) (o : Oracle) : Except GoError Unit × List Event :=
  let r := c.bash o
  match r.err with
  | none => (Except.ok (), r.events)
  | some e =>
    let p := c.b.Panic e
    (p.1, r.events ++ (Event.warnLog ("unexpected error in bash -c " ++ c.raw) :: p.2))

/-- `Command.BashStr`: rebind both outputs to a fresh builder, bash; on
error, `Warnf` then `Panic`; if control returns, return the builder's
content. -/
def Command.BashStr (c : Command) (o : Oracle) : Except GoError String × List Event :=
  let c2 := c.withOutErrBuilder
  let r := c2.bash o
  match r.err with
  | none => (Except.ok (builderContent r.events), r.events)
  | some e =>
    let p := c2.b.Panic e
    let evs := r.events ++ (Event.warnLog ("unexpected error in bash -c " ++ c.raw) :: p.2)
    match p.1 with
    | Except.ok _ => (Except.ok (builderContent r.events), evs)
    | Except.error e2 => (Except.error e2, evs)

/-- `Command.BashErr`: return the helper's error untouched. -/
def Command.BashErr (c : Command) (o : Oracle) : Option GoError × List Event :=
  let r := c.bash o
  (r.err, r.events)

/-- `Command.BashExitStatus`: extract `(n, err)` from the bash run; on
non-nil `err`, `Warnf` then `Panic`; if control returns, return `n`. -/
def Command.BashExitStatus (c : Command) (o : Oracle) : Except GoError Int × List Event :=
  let r := c.bash o
  match extractExitStatus r.err with
  | (n, none) => (Except.ok n, r.events)
  | (n, some e) =>
    let p := c.b.Panic e
    let evs := r.events ++ (Event.warnLog ("unexpected error in bash -c " ++ c.raw) :: p.2)
    match p.1 with
    | Except.ok _ => (Except.ok n, evs)
    | Except.error e2 => (Except.error e2, evs)

/-- Configuration method `In`. -/
def Command.In (c : Command) (r : Reader) : Command :=
  { c with inp := r }

/-- Configuration method `Out`. -/
def Command.Out (c : Command) (w : Writer) : Command :=
  { c with out := w }

/-- Configuration method `Err`. -/
def Command.Err (c : Command) (w : Writer) : Command :=
  { c with err := w }

/-- Configuration method `OutErr`: `c.out = w; c.err = w`. -/
def Command.OutErr (c : Command) (w : Writer) : Command :=
  { c with out := w, err := w }

/-- Configuration method `Env`: appends to `c.env`. -/
def Command.Env (c : Command) (vars : List String) : Command :=
  { c with env := c.env ++ vars }

/-- Configuration method `Dir`. -/
def Command.Dir (c : Command) (dir : String) : Command :=
  { c with dir := dir }

/-- Configuration method `ExitStatus`: binds the external cell (`none`
models passing nil). -/
def Command.ExitStatus (c : Command) (n : Option Nat) : Command :=
  { c with exitStatus := n }

/-- Configuration method `ExpandEnv`: `c.raw = os.ExpandEnv(c.raw)`;
`expand` is the ambient-environment expansion function. -/
def Command.ExpandEnv (c : Command) (expand : String → String) : Command :=
  { c with raw := expand c.raw }

/-- The exit-status cell writes in a trace, as `(cell, value)` pairs. -/
def sinkWrites (evs : List Event) : List (Nat × Int) :=
  evs.filterMap fun ev =>
    match ev with
    | Event.sinkWrote u n => some (u, n)
    | _ => none

/-- The spawns in a trace. -/
def spawnsOf (evs : List Event) : List Spawn :=
  evs.filterMap fun ev =>
    match ev with
    | Event.spawned sp => some sp
    | _ => none

/-- The errors routed to the Error Escalation Policy in a trace: handler
invocations and default panics alike. -/
def escalations (evs : List Event) : List GoError :=
  evs.filterMap fun ev =>
    match ev with
    | Event.handlerCalled _ e => some e
    | Event.panicked e => some e
    | _ => none

/-- The value an external cell `u` holds after a trace, starting from
`v0`. -/
def applySink (u : Nat) (v0 : Int) (evs : List Event) : Int :=
  evs.foldl (fun v ev =>
    match ev with
    | Event.sinkWrote u2 n => if u2 = u then n else v
    | _ => v) v0

/-! Reduction lemmas for the trace projections. -/

@[simp] theorem escalations_nil : escalations [] = [] := rfl

@[simp] theorem escalations_cons_verbose (m : String) (t : List Event) :
    escalations (Event.verboseLog m :: t) = escalations t := rfl

@[simp] theorem escalations_cons_warn (m : String) (t : List Event) :
    escalations (Event.warnLog m :: t) = escalations t := rfl

@[simp] theorem escalations_cons_spawned (sp : Spawn) (t : List Event) :
    escalations (Event.spawned sp :: t) = escalations t := rfl

@[simp] theorem escalations_cons_wrote (w : Writer) (s : String) (t : List Event) :
    escalations (Event.wrote w s :: t) = escalations t := rfl

@[simp] theorem escalations_cons_sink (u : Nat) (n : Int) (t : List Event) :
    escalations (Event.sinkWrote u n :: t) = escalations t := rfl

@[simp] theorem escalations_cons_handler (h : Nat) (e : GoError) (t : List Event) :
    escalations (Event.handlerCalled h e :: t) = e :: escalations t := rfl

@[simp] theorem escalations_cons_panicked (e : GoError) (t : List Event) :
    escalations (Event.panicked e :: t) = e :: escalations t := rfl

@[simp] theorem escalations_append (a b : List Event) :
    escalations (a ++ b) = escalations a ++ escalations b :=
  List.filterMap_append a b _

@[simp] theorem sinkWrites_nil : sinkWrites [] = [] := rfl

@[simp] theorem sinkWrites_cons_verbose (m : String) (t : List Event) :
    sinkWrites (Event.verboseLog m :: t) = sinkWrites t := rfl

@[simp] theorem sinkWrites_cons_warn (m : String) (t : List Event) :
    sinkWrites (Event.warnLog m :: t) = sinkWrites t := rfl

@[simp] theorem sinkWrites_cons_spawned (sp : Spawn) (t : List Event) :
    sinkWrites (Event.spawned sp :: t) = sinkWrites t := rfl

@[simp] theorem sinkWrites_cons_wrote (w : Writer) (s : String) (t : List Event) :
    sinkWrites (Event.wrote w s :: t) = sinkWrites t := rfl

@[simp] theorem sinkWrites_cons_sink (u : Nat) (n : Int) (t : List Event) :
    sinkWrites (Event.sinkWrote u n :: t) = (u, n) :: sinkWrites t := rfl

@[simp] theorem sinkWrites_cons_handler (h : Nat) (e : GoError) (t : List Event) :
    sinkWrites (Event.handlerCalled h e :: t) = sinkWrites t := rfl

@[simp] theorem sinkWrites_cons_panicked (e : GoError) (t : List Event) :
    sinkWrites (Event.panicked e :: t) = sinkWrites t := rfl

@[simp] theorem sinkWrites_append (a b : List Event) :
    sinkWrites (a ++ b) = sinkWrites a ++ sinkWrites b :=
  List.filterMap_append a b _

@[simp] theorem spawnsOf_nil : spawnsOf [] = [] := rfl

@[simp] theorem spawnsOf_cons_verbose (m : String) (t : List Event) :
    spawnsOf (Event.verboseLog m :: t) = spawnsOf t := rfl

@[simp] theorem spawnsOf_cons_warn (m : String) (t : List Event) :
    spawnsOf (Event.warnLog m :: t) = spawnsOf t := rfl

@[simp] theorem spawnsOf_cons_spawned (sp : Spawn) (t : List Event) :
    spawnsOf (Event.spawned sp :: t) = sp :: spawnsOf t := rfl

@[simp] theorem spawnsOf_cons_wrote (w : Writer) (s : String) (t : List Event) :
    spawnsOf (Event.wrote w s :: t) = spawnsOf t := rfl

@[simp] theorem spawnsOf_cons_sink (u : Nat) (n : Int) (t : List Event) :
    spawnsOf (Event.sinkWrote u n :: t) = spawnsOf t := rfl

@[simp] theorem spawnsOf_cons_handler (h : Nat) (e : GoError) (t : List Event) :
    spawnsOf (Event.handlerCalled h e :: t) = spawnsOf t := rfl

@[simp] theorem spawnsOf_cons_panicked (e : GoError) (t : List Event) :
    spawnsOf (Event.panicked e :: t) = spawnsOf t := rfl

@[simp] theorem spawnsOf_append (a b : List Event) :
    spawnsOf (a ++ b) = spawnsOf a ++ spawnsOf b :=
  List.filterMap_append a b _

@[simp] theorem builderContent_nil : builderContent [] = "" := rfl

@[simp] theorem builderContent_cons_verbose (m : String) (t : List Event) :
    builderContent (Event.verboseLog m :: t) = builderContent t := rfl

@[simp] theorem builderContent_cons_warn (m : String) (t : List Event) :
    builderContent (Event.warnLog m :: t) = builderContent t := rfl

@[simp] theorem builderContent_cons_spawned (sp : Spawn) (t : List Event) :
    builderContent (Event.spawned sp :: t) = builderContent t := rfl

@[simp] theorem builderContent_cons_wrote_builder (s : String) (t : List Event) :
    builderContent (Event.wrote Writer.builder s :: t) = s ++ builderContent t := rfl

@[simp] theorem builderContent_cons_wrote_named (n s : String) (t : List Event) :
    builderContent (Event.wrote (Writer.named n) s :: t) = builderContent t := rfl

@[simp] theorem builderContent_cons_sink (u : Nat) (n : Int) (t : List Event) :
    builderContent (Event.sinkWrote u n :: t) = builderContent t := rfl

@[simp] theorem builderContent_cons_handler (h : Nat) (e : GoError) (t : List Event) :
    builderContent (Event.handlerCalled h e :: t) = builderContent t := rfl

@[simp] theorem builderContent_cons_panicked (e : GoError) (t : List Event) :
    builderContent (Event.panicked e :: t) = builderContent t := rfl

theorem builderContent_append (a b : List Event) :
    builderContent (a ++ b) = builderContent a ++ builderContent b := by
  induction a with
  | nil => simp
  | cons hd t ih =>
    cases hd with
    | wrote w s => cases w <;> simp [ih, String.append_assoc]
    | verboseLog m => simpa using ih
    | warnLog m => simpa using ih
    | spawned sp => simpa using ih
    | sinkWrote u n => simpa using ih
    | handlerCalled h e => simpa using ih
    | panicked e => simpa using ih

/-! Per-chunk lemmas. -/

theorem escalations_verboseEvs (b : Bsh) (m : String) :
    escalations (verboseEvs b m) = [] := by
  unfold verboseEvs; split <;> rfl

theorem sinkWrites_verboseEvs (b : Bsh) (m : String) :
    sinkWrites (verboseEvs b m) = [] := by
  unfold verboseEvs; split <;> rfl

theorem spawnsOf_verboseEvs (b : Bsh) (m : String) :
    spawnsOf (verboseEvs b m) = [] := by
  unfold verboseEvs; split <;> rfl

theorem builderContent_verboseEvs (b : Bsh) (m : String) :
    builderContent (verboseEvs b m) = "" := by
  unfold verboseEvs; split <;> rfl

theorem escalations_envLogEvs (c : Command) :
    escalations (envLogEvs c) = [] := by
  unfold envLogEvs; split
  · exact escalations_verboseEvs c.b _
  · rfl

theorem sinkWrites_envLogEvs (c : Command) :
    sinkWrites (envLogEvs c) = [] := by
  unfold envLogEvs; split
  · exact sinkWrites_verboseEvs c.b _
  · rfl

theorem spawnsOf_envLogEvs (c : Command) :
    spawnsOf (envLogEvs c) = [] := by
  unfold envLogEvs; split
  · exact spawnsOf_verboseEvs c.b _
  · rfl

theorem builderContent_envLogEvs (c : Command) :
    builderContent (envLogEvs c) = "" := by
  unfold envLogEvs; split
  · exact builderContent_verboseEvs c.b _
  · rfl

theorem escalations_wroteEvs (o : Oracle) (sp : Spawn) :
    escalations (wroteEvs o sp) = [] := by
  unfold wroteEvs
  induction o.writes sp with
  | nil => rfl
  | cons a t ih => simpa using ih

theorem sinkWrites_wroteEvs (o : Oracle) (sp : Spawn) :
    sinkWrites (wroteEvs o sp) = [] := by
  unfold wroteEvs
  induction o.writes sp with
  | nil => rfl
  | cons a t ih => simpa using ih

theorem spawnsOf_wroteEvs (o : Oracle) (sp : Spawn) :
    spawnsOf (wroteEvs o sp) = [] := by
  unfold wroteEvs
  induction o.writes sp with
  | nil => rfl
  | cons a t ih => simpa using ih

theorem builderContent_wroteEvs_builder (o : Oracle) (sp : Spawn)
    (h1 : sp.stdout = Writer.builder) (h2 : sp.stderr = Writer.builder) :
    builderContent (wroteEvs o sp) = combinedWrites o sp := by
  unfold wroteEvs combinedWrites
  induction o.writes sp with
  | nil => rfl
  | cons a t ih =>
    rcases a with ⟨sel, s⟩
    have hsel : selTarget sp sel = Writer.builder := by
      cases sel
      · exact h1
      · exact h2
    simp [hsel, ih]

theorem escalations_sinkEvs (c : Command) (w : Option GoError) :
    escalations (sinkEvs c w) = [] := by
  unfold sinkEvs
  rcases c.exitStatus with _ | u
  · rfl
  · rcases h : extractExitStatus w with ⟨n, _ | e⟩ <;> rfl

theorem spawnsOf_sinkEvs (c : Command) (w : Option GoError) :
    spawnsOf (sinkEvs c w) = [] := by
  unfold sinkEvs
  rcases c.exitStatus with _ | u
  · rfl
  · rcases h : extractExitStatus w with ⟨n, _ | e⟩ <;> rfl

theorem builderContent_sinkEvs (c : Command) (w : Option GoError) :
    builderContent (sinkEvs c w) = "" := by
  unfold sinkEvs
  rcases c.exitStatus with _ | u
  · rfl
  · rcases h : extractExitStatus w with ⟨n, _ | e⟩ <;> rfl

theorem escalations_panic (b : Bsh) (e : GoError) :
    escalations (b.Panic e).2 = [e] := by
  unfold Bsh.Panic
  rcases b.fnErr with _ | h <;> rfl

theorem sinkWrites_panic (b : Bsh) (e : GoError) :
    sinkWrites (b.Panic e).2 = [] := by
  unfold Bsh.Panic
  rcases b.fnErr with _ | h <;> rfl

theorem spawnsOf_panic (b : Bsh) (e : GoError) :
    spawnsOf (b.Panic e).2 = [] := by
  unfold Bsh.Panic
  rcases b.fnErr with _ | h <;> rfl

theorem applySink_of_sinkWrites_nil (u : Nat) (v0 : Int) (evs : List Event)
    (h : sinkWrites evs = []) : applySink u v0 evs = v0 := by
  induction evs generalizing v0 with
  | nil => rfl
  | cons hd t ih =>
    cases hd with
    | sinkWrote u2 n => simp [sinkWrites] at h
    | verboseLog m => exact ih _ (by simpa using h)
    | warnLog m => exact ih _ (by simpa using h)
    | spawned sp => exact ih _ (by simpa using h)
    | wrote w s => exact ih _ (by simpa using h)
    | handlerCalled hh e => exact ih _ (by simpa using h)
    | panicked e => exact ih _ (by simpa using h)

/-! Decomposition of the two strategy helpers. -/

theorem run_parse_ok (c : Command) (o : Oracle) (args : List String)
    (hp : o.parse c.raw = Except.ok args) :
    c.run o =
      { err := o.waitResult (runSp c o args),
        events :=
          verboseEvs c.b ("Exec: " ++ c.raw) ++
          envLogEvs c ++
          (Event.spawned (runSp c o args) ::
            (wroteEvs o (runSp c o args) ++
              sinkEvs c (o.waitResult (runSp c o args)))) } := by
  unfold Command.run
  rw [hp]

theorem escalations_run (c : Command) (o : Oracle) :
    escalations (c.run o).events = [] := by
  unfold Command.run
  cases hp : o.parse c.raw with
  | error e => rfl
  | ok args =>
    simp [escalations_verboseEvs, escalations_envLogEvs, escalations_wroteEvs,
      escalations_sinkEvs]

theorem escalations_bash (c : Command) (o : Oracle) :
    escalations (c.bash o).events = [] := by
  unfold Command.bash
  simp [escalations_verboseEvs, escalations_envLogEvs, escalations_wroteEvs,
    escalations_sinkEvs]

theorem spawnsOf_run_ok (c : Command) (o : Oracle) (args : List String)
    (hp : o.parse c.raw = Except.ok args) :
    spawnsOf (c.run o).events = [runSp c o args] := by
  rw [run_parse_ok c o args hp]
  simp [spawnsOf_verboseEvs, spawnsOf_envLogEvs, spawnsOf_wroteEvs, spawnsOf_sinkEvs]

theorem spawnsOf_bash (c : Command) (o : Oracle) :
    spawnsOf (c.bash o).events = [bashSp c o] := by
  unfold Command.bash
  simp [spawnsOf_verboseEvs, spawnsOf_envLogEvs, spawnsOf_wroteEvs, spawnsOf_sinkEvs]

/-! Concrete fixtures used by witnesses and counterexamples. -/

/-- A context with no error handler installed. -/
def bshPlain : Bsh := { fnErr := none, verbose := false }

/-- A context with an error handler installed (handler id 5). -/
def bshHandled : Bsh := { fnErr := some 5, verbose := false }

/-- A command with a bound exit-status sink (cell 7). -/
def cmdSink : Command :=
  { raw := "ls -l", dir := "/tmp", env := [], inp := ⟨"stdin"⟩,
    out := Writer.named "stdout", err := Writer.named "stderr",
    exitStatus := some 7, b := bshPlain }

/-- The same command owned by a context with a handler installed. -/
def cmdHandled : Command := { cmdSink with b := bshHandled }

/-- Oracle: parse succeeds, every spawn exits 3 after writing to both
streams. -/
def oracleExit3 : Oracle :=
  { parse := fun _ => Except.ok ["ls", "-l"], ambientEnv := ["PATH=/bin"],
    waitResult := fun _ => some (GoError.exitErr 3),
    writes := fun _ => [(StreamSel.toOut, "hi "), (StreamSel.toErr, "oops")] }

/-- Oracle: parse fails with a malformed-command error. -/
def oracleBadParse : Oracle :=
  { parse := fun _ => Except.error (GoError.plain "unbalanced quotes"),
    ambientEnv := [], waitResult := fun _ => none, writes := fun _ => [] }

/-- Oracle: every spawn fails before producing an exit code. -/
def oracleStartFail : Oracle :=
  { parse := fun _ => Except.ok ["nope"], ambientEnv := [],
    waitResult := fun _ => some (GoError.plain "executable not found"),
    writes := fun _ => [] }

/-- Oracle: every child is killed by a signal, which `cmd.Run` reports as an
`exec.ExitError` whose `ExitCode()` is -1. -/
def oracleSignaled : Oracle :=
  { parse := fun _ => Except.ok ["sleep", "100"], ambientEnv := [],
    waitResult := fun _ => some (GoError.exitErr (-1)), writes := fun _ => [] }

/-! Claim C1. -/

/-- C1 counterexample: at the outcome "process ran to completion and
returned exit code 3" the extractor returns `(3, null)`: the returned error
is null while the returned exit code is not 0, refuting the claimed
equivalence "exit code 0 is returned if and only if the returned error is
null". -/
theorem extractExitStatus_zero_iff_cex :
    (extractExitStatus (some (GoError.exitErr 3))).2 = none ∧
    (extractExitStatus (some (GoError.exitErr 3))).1 ≠ 0 :=
  ⟨rfl, by decide⟩

/-- C1 (amended): the Exit Status Extractor returns `(0, null)` when the
wait produced no error, `(thatCode, null)` when the error carries a genuine
process exit code (a non-zero code alone is not a failure at this layer),
and `(-1, originalError)` when the error carries no exit code; consequently
exit code 0 is returned only if the returned error is null (the converse
direction fails: a non-zero genuine exit code is returned with a null
error). -/
theorem extractExitStatus_cases :
    extractExitStatus none = (0, none) ∧
    (∀ code : Int, extractExitStatus (some (GoError.exitErr code)) = (code, none)) ∧
    (∀ msg : String,
      extractExitStatus (some (GoError.plain msg)) = (-1, some (GoError.plain msg))) ∧
    (∀ r : Option GoError, (extractExitStatus r).1 = 0 → (extractExitStatus r).2 = none) := by
  refine ⟨rfl, fun code => rfl, fun msg => rfl, ?_⟩
  intro r h
  rcases r with _ | e
  · rfl
  · cases e with
    | exitErr code => rfl
    | plain m => simp [extractExitStatus] at h

/-- C1 witness: the extractor cases evaluated at a concrete outcome. -/
theorem extractExitStatus_cases_witness :
    extractExitStatus (some (GoError.exitErr 0)) = (0, none) ∧
    (extractExitStatus (some (GoError.exitErr 0))).2 = none :=
  ⟨extractExitStatus_cases.2.1 0,
    extractExitStatus_cases.2.2.2 (some (GoError.exitErr 0)) (by decide)⟩

/-! Claim C2. -/

theorem extract_fst_of_snd_some (w : Option GoError) (e : GoError)
    (h : (extractExitStatus w).2 = some e) : (extractExitStatus w).1 = -1 := by
  rcases w with _ | we
  · simp [extractExitStatus] at h
  · cases we with
    | exitErr code => simp [extractExitStatus] at h
    | plain m => rfl

theorem runExitStatus_of_extract_none (c : Command) (o : Oracle) (n : Int)
    (hx : extractExitStatus (c.run o).err = (n, none)) :
    c.RunExitStatus o = (Except.ok n, (c.run o).events) := by
  simp only [Command.RunExitStatus]
  rw [hx]

theorem runExitStatus_of_extract_some (c : Command) (o : Oracle) (n : Int) (e : GoError)
    (hx : extractExitStatus (c.run o).err = (n, some e)) :
    (c.RunExitStatus o).2 =
      (c.run o).events ++
        (Event.warnLog ("unexpected error in " ++ c.raw) :: (c.b.Panic e).2) := by
  simp only [Command.RunExitStatus]
  rw [hx]
  rcases hp : (c.b.Panic e).1 with e2 | u <;> simp [hp]

theorem bashExitStatus_of_extract_none (c : Command) (o : Oracle) (n : Int)
    (hx : extractExitStatus (c.bash o).err = (n, none)) :
    c.BashExitStatus o = (Except.ok n, (c.bash o).events) := by
  simp only [Command.BashExitStatus]
  rw [hx]

theorem bashExitStatus_of_extract_some (c : Command) (o : Oracle) (n : Int) (e : GoError)
    (hx : extractExitStatus (c.bash o).err = (n, some e)) :
    (c.BashExitStatus o).2 =
      (c.bash o).events ++
        (Event.warnLog ("unexpected error in bash -c " ++ c.raw) :: (c.b.Panic e).2) := by
  simp only [Command.BashExitStatus]
  rw [hx]
  rcases hp : (c.b.Panic e).1 with e2 | u <;> simp [hp]

/-- C2 counterexample: a child killed by a signal makes `cmd.Run` return an
`exec.ExitError` whose `ExitCode()` is -1, so extraction yields code -1 with
a null error; `RunExitStatus` then returns -1 to the caller and routes
nothing to the Error Escalation Policy, refuting "extracted code -1 implies
the error is escalated". -/
theorem runExitStatus_signal_cex :
    (extractExitStatus (cmdSink.run oracleSignaled).err).1 = -1 ∧
    (cmdSink.RunExitStatus oracleSignaled).1 = Except.ok (-1) ∧
    escalations (cmdSink.RunExitStatus oracleSignaled).2 = [] :=
  ⟨rfl, rfl, rfl⟩

/-- C2 (amended): for the captured-exit-code projections `RunExitStatus` and
`BashExitStatus`, if the extraction yields a non-null error (no real exit
code obtainable; the extracted code is then -1), that error is routed to the
Error Escalation Policy; otherwise the extracted code is returned to the
caller without escalation even when it is non-zero — including the -1 that
an `exec.ExitError` reports for a signal-killed child. -/
theorem capturedExitCode_policy (c : Command) (o : Oracle) :
    (∀ e, (extractExitStatus (c.run o).err).2 = some e →
        escalations (c.RunExitStatus o).2 = [e] ∧
        (extractExitStatus (c.run o).err).1 = -1) ∧
    ((extractExitStatus (c.run o).err).2 = none →
        (c.RunExitStatus o).1 = Except.ok (extractExitStatus (c.run o).err).1 ∧
        escalations (c.RunExitStatus o).2 = []) ∧
    (∀ e, (extractExitStatus (c.bash o).err).2 = some e →
        escalations (c.BashExitStatus o).2 = [e] ∧
        (extractExitStatus (c.bash o).err).1 = -1) ∧
    ((extractExitStatus (c.bash o).err).2 = none →
        (c.BashExitStatus o).1 = Except.ok (extractExitStatus (c.bash o).err).1 ∧
        escalations (c.BashExitStatus o).2 = []) := by
  refine ⟨fun e he => ?_, fun he => ?_, fun e he => ?_, fun he => ?_⟩
  · have hx : extractExitStatus (c.run o).err = ((extractExitStatus (c.run o).err).1, some e) := by
      rw [← he]
    refine ⟨?_, extract_fst_of_snd_some _ e he⟩
    rw [runExitStatus_of_extract_some c o _ e hx]
    simp [escalations_run, escalations_panic]
  · have hx : extractExitStatus (c.run o).err = ((extractExitStatus (c.run o).err).1, none) := by
      rw [← he]
    rw [runExitStatus_of_extract_none c o _ hx]
    exact ⟨rfl, escalations_run c o⟩
  · have hx : extractExitStatus (c.bash o).err = ((extractExitStatus (c.bash o).err).1, some e) := by
      rw [← he]
    refine ⟨?_, extract_fst_of_snd_some _ e he⟩
    rw [bashExitStatus_of_extract_some c o _ e hx]
    simp [escalations_bash, escalations_panic]
  · have hx : extractExitStatus (c.bash o).err = ((extractExitStatus (c.bash o).err).1, none) := by
      rw [← he]
    rw [bashExitStatus_of_extract_none c o _ hx]
    exact ⟨rfl, escalations_bash c o⟩

/-- C2 witness: a start failure (error without an exit code) is escalated by
the captured-exit-code projection. -/
theorem capturedExitCode_policy_witness :
    (extractExitStatus (cmdSink.run oracleStartFail).err).2 =
      some (GoError.plain "executable not found") ∧
    escalations (cmdSink.RunExitStatus oracleStartFail).2 =
      [GoError.plain "executable not found"] :=
  ⟨rfl, ((capturedExitCode_policy cmdSink oracleStartFail).1 _ rfl).1⟩

/-! Claim C3. -/

/-- C3: when tokenization of the raw command string fails, the Direct
Strategy helper `run` returns the malformed-command parse error as a
terminal error with an empty event trace: no process spawn, no stream
write, no verbose Exec log, and no escalation happens inside the strategy
itself. -/
theorem run_parse_failure_terminal (c : Command) (o : Oracle) (e : GoError)
    (hp : o.parse c.raw = Except.error e) :
    c.run o = { err := some e, events := [] } := by
  unfold Command.run
  rw [hp]

/-- C3 witness: a command whose tokenization fails on unbalanced quotes. -/
theorem run_parse_failure_terminal_witness :
    oracleBadParse.parse cmdSink.raw = Except.error (GoError.plain "unbalanced quotes") ∧
    cmdSink.run oracleBadParse =
      { err := some (GoError.plain "unbalanced quotes"), events := [] } :=
  ⟨rfl, run_parse_failure_terminal cmdSink oracleBadParse _ rfl⟩

/-! Claim C4. -/

@[simp] theorem withOutErrBuilder_raw (c : Command) : c.withOutErrBuilder.raw = c.raw := rfl

@[simp] theorem withOutErrBuilder_b (c : Command) : c.withOutErrBuilder.b = c.b := rfl

@[simp] theorem withOutErrBuilder_exitStatus (c : Command) :
    c.withOutErrBuilder.exitStatus = c.exitStatus := rfl

@[simp] theorem withOutErrBuilder_out (c : Command) :
    c.withOutErrBuilder.out = Writer.builder := rfl

@[simp] theorem withOutErrBuilder_err (c : Command) :
    c.withOutErrBuilder.err = Writer.builder := rfl

theorem sinkWrites_run_of (c : Command) (o : Oracle) (u : Nat) (args : List String)
    (w : Option GoError) (N : Int)
    (hs : c.exitStatus = some u)
    (hp : o.parse c.raw = Except.ok args)
    (hw : ∀ sp, o.waitResult sp = w)
    (hx : extractExitStatus w = (N, none)) :
    sinkWrites (c.run o).events = [(u, N)] := by
  rw [run_parse_ok c o args hp]
  simp [sinkWrites_verboseEvs, sinkWrites_envLogEvs, sinkWrites_wroteEvs, hw,
    sinkEvs, hs, hx]

theorem sinkWrites_bash_of (c : Command) (o : Oracle) (u : Nat)
    (w : Option GoError) (N : Int)
    (hs : c.exitStatus = some u)
    (hw : ∀ sp, o.waitResult sp = w)
    (hx : extractExitStatus w = (N, none)) :
    sinkWrites (c.bash o).events = [(u, N)] := by
  unfold Command.bash
  simp [sinkWrites_verboseEvs, sinkWrites_envLogEvs, sinkWrites_wroteEvs, hw,
    sinkEvs, hs, hx]

theorem sinkWrites_Run (c : Command) (o : Oracle) :
    sinkWrites (c.Run o).2 = sinkWrites (c.run o).events := by
  simp only [Command.Run]
  rcases hr : (c.run o).err with _ | e
  · rfl
  · simp [sinkWrites_panic]

theorem sinkWrites_RunStr (c : Command) (o : Oracle) :
    sinkWrites (c.RunStr o).2 = sinkWrites (c.withOutErrBuilder.run o).events := by
  simp only [Command.RunStr]
  rcases hr : (c.withOutErrBuilder.run o).err with _ | e
  · rfl
  · rcases hq : (c.b.Panic e).1 with e2 | uu <;>
      simp [hq, sinkWrites_panic]

theorem sinkWrites_RunErr (c : Command) (o : Oracle) :
    sinkWrites (c.RunErr o).2 = sinkWrites (c.run o).events := rfl

theorem sinkWrites_RunExitStatus (c : Command) (o : Oracle) :
    sinkWrites (c.RunExitStatus o).2 = sinkWrites (c.run o).events := by
  rcases hx : extractExitStatus (c.run o).err with ⟨n, w2⟩
  rcases w2 with _ | e
  · rw [runExitStatus_of_extract_none c o n hx]
  · rw [runExitStatus_of_extract_some c o n e hx]
    simp [sinkWrites_panic]

theorem sinkWrites_Bash (c : Command) (o : Oracle) :
    sinkWrites (c.Bash o).2 = sinkWrites (c.bash o).events := by
  simp only [Command.Bash]
  rcases hr : (c.bash o).err with _ | e
  · rfl
  · simp [sinkWrites_panic]

theorem sinkWrites_BashStr (c : Command) (o : Oracle) :
    sinkWrites (c.BashStr o).2 = sinkWrites (c.withOutErrBuilder.bash o).events := by
  simp only [Command.BashStr]
  rcases hr : (c.withOutErrBuilder.bash o).err with _ | e
  · rfl
  · rcases hq : (c.b.Panic e).1 with e2 | uu <;>
      simp [hq, sinkWrites_panic]

theorem sinkWrites_BashErr (c : Command) (o : Oracle) :
    sinkWrites (c.BashErr o).2 = sinkWrites (c.bash o).events := rfl

theorem sinkWrites_BashExitStatus (c : Command) (o : Oracle) :
    sinkWrites (c.BashExitStatus o).2 = sinkWrites (c.bash o).events := by
  rcases hx : extractExitStatus (c.bash o).err with ⟨n, w2⟩
  rcases w2 with _ | e
  · rw [bashExitStatus_of_extract_none c o n hx]
  · rw [bashExitStatus_of_extract_some c o n e hx]
    simp [sinkWrites_panic]

/-- C4: with a bound exit-status sink and a wait outcome that extracts to a
genuine exit code N with null error (the process ran to completion),
every one of the eight projection entry points writes the sink exactly
once, with value N, immediately after extraction — regardless of whether
the projection afterwards escalates the non-zero-exit error. -/
theorem exitStatusSink_written_once (c : Command) (o : Oracle) (u : Nat)
    (args : List String) (w : Option GoError) (N : Int)
    (hs : c.exitStatus = some u)
    (hp : o.parse c.raw = Except.ok args)
    (hw : ∀ sp, o.waitResult sp = w)
    (hx : extractExitStatus w = (N, none)) :
    sinkWrites (c.Run o).2 = [(u, N)] ∧
    sinkWrites (c.RunStr o).2 = [(u, N)] ∧
    sinkWrites (c.RunErr o).2 = [(u, N)] ∧
    sinkWrites (c.RunExitStatus o).2 = [(u, N)] ∧
    sinkWrites (c.Bash o).2 = [(u, N)] ∧
    sinkWrites (c.BashStr o).2 = [(u, N)] ∧
    sinkWrites (c.BashErr o).2 = [(u, N)] ∧
    sinkWrites (c.BashExitStatus o).2 = [(u, N)] := by
  have h1 := sinkWrites_run_of c o u args w N hs hp hw hx
  have h2 := sinkWrites_run_of c.withOutErrBuilder o u args w N hs hp hw hx
  have h3 := sinkWrites_bash_of c o u w N hs hw hx
  have h4 := sinkWrites_bash_of c.withOutErrBuilder o u w N hs hw hx
  exact ⟨(sinkWrites_Run c o).trans h1, (sinkWrites_RunStr c o).trans h2,
    (sinkWrites_RunErr c o).trans h1, (sinkWrites_RunExitStatus c o).trans h1,
    (sinkWrites_Bash c o).trans h3, (sinkWrites_BashStr c o).trans h4,
    (sinkWrites_BashErr c o).trans h3, (sinkWrites_BashExitStatus c o).trans h3⟩

/-- C4 witness: a command with sink cell 7 run under an oracle whose every
spawn exits 3: the sink write trace is exactly one write of 3, under the
escalate-only projection and under the captured-text shell projection. -/
theorem exitStatusSink_written_once_witness :
    cmdSink.exitStatus = some 7 ∧
    oracleExit3.parse cmdSink.raw = Except.ok ["ls", "-l"] ∧
    extractExitStatus (some (GoError.exitErr 3)) = (3, none) ∧
    sinkWrites (cmdSink.Run oracleExit3).2 = [(7, 3)] ∧
    sinkWrites (cmdSink.BashStr oracleExit3).2 = [(7, 3)] :=
  ⟨rfl, rfl, rfl,
    (exitStatusSink_written_once cmdSink oracleExit3 7 ["ls", "-l"]
      (some (GoError.exitErr 3)) 3 rfl rfl (fun _ => rfl) rfl).1,
    (exitStatusSink_written_once cmdSink oracleExit3 7 ["ls", "-l"]
      (some (GoError.exitErr 3)) 3 rfl rfl (fun _ => rfl) rfl).2.2.2.2.2.1⟩

/-! Claim C9. -/

theorem sinkEvs_of_no_exit_code (c : Command) (w : Option GoError)
    (hx : (extractExitStatus w).2 ≠ none) : sinkEvs c w = [] := by
  unfold sinkEvs
  rcases c.exitStatus with _ | u
  · rfl
  · rcases h : extractExitStatus w with ⟨n, w2⟩
    rcases w2 with _ | e
    · rw [h] at hx
      simp at hx
    · rfl

/-- C9: with a bound exit-status sink, when every wait outcome is an error
that carries no genuine exit code (the extractor returns a non-null error),
neither strategy helper writes the sink: the sink-write trace is empty and
the cell retains whatever value it held before the terminal call. -/
theorem sink_not_written_without_exit_code (c : Command) (o : Oracle) (u : Nat) (v0 : Int)
    (hs : c.exitStatus = some u)
    (hx : ∀ sp, (extractExitStatus (o.waitResult sp)).2 ≠ none) :
    sinkWrites (c.run o).events = [] ∧
    applySink u v0 (c.run o).events = v0 ∧
    sinkWrites (c.bash o).events = [] ∧
    applySink u v0 (c.bash o).events = v0 := by
  have hrun : sinkWrites (c.run o).events = [] := by
    unfold Command.run
    cases hpp : o.parse c.raw with
    | error e => rfl
    | ok args =>
      have hse := sinkEvs_of_no_exit_code c (o.waitResult (runSp c o args)) (hx _)
      simp [sinkWrites_verboseEvs, sinkWrites_envLogEvs, sinkWrites_wroteEvs, hse]
  have hbash : sinkWrites (c.bash o).events = [] := by
    unfold Command.bash
    have hse := sinkEvs_of_no_exit_code c (o.waitResult (bashSp c o)) (hx _)
    simp [sinkWrites_verboseEvs, sinkWrites_envLogEvs, sinkWrites_wroteEvs, hse]
  exact ⟨hrun, applySink_of_sinkWrites_nil u v0 _ hrun, hbash,
    applySink_of_sinkWrites_nil u v0 _ hbash⟩

/-- C9 witness: under an oracle whose spawns fail to start, the command with
sink cell 7 leaves the cell at its prior value 42. -/
theorem sink_not_written_without_exit_code_witness :
    cmdSink.exitStatus = some 7 ∧
    (extractExitStatus (oracleStartFail.waitResult (bashSp cmdSink oracleStartFail))).2 ≠ none ∧
    sinkWrites (cmdSink.run oracleStartFail).events = [] ∧
    applySink 7 42 (cmdSink.run oracleStartFail).events = 42 ∧
    applySink 7 42 (cmdSink.bash oracleStartFail).events = 42 :=
  ⟨rfl, by simp [oracleStartFail, extractExitStatus],
    (sink_not_written_without_exit_code cmdSink oracleStartFail 7 42 rfl
      (fun _ => by simp [oracleStartFail, extractExitStatus])).1,
    (sink_not_written_without_exit_code cmdSink oracleStartFail 7 42 rfl
      (fun _ => by simp [oracleStartFail, extractExitStatus])).2.1,
    (sink_not_written_without_exit_code cmdSink oracleStartFail 7 42 rfl
      (fun _ => by simp [oracleStartFail, extractExitStatus])).2.2.2⟩

/-! Claim C6. -/

/-- C6: the Error Escalation Policy is the single mutable `fnErr` slot of
the owning `Bsh`: `Panic` with a handler installed invokes the handler with
the error and control returns to the caller; with no handler it raises an
unrecoverable fault carrying the error; `SetErrorHandler` fully replaces the
slot (whatever it held before) and alters nothing else. -/
theorem panic_policy_single_slot (b : Bsh) (e : GoError) (h : Nat) (fn : Option Nat) :
    (b.fnErr = some h → b.Panic e = (Except.ok (), [Event.handlerCalled h e])) ∧
    (b.fnErr = none → b.Panic e = (Except.error e, [Event.panicked e])) ∧
    (b.SetErrorHandler fn).1.fnErr = fn ∧
    (b.SetErrorHandler fn).1.verbose = b.verbose := by
  refine ⟨fun hh => ?_, fun hh => ?_, rfl, rfl⟩ <;> simp [Bsh.Panic, hh]

/-- C6 witness: Panic with and without an installed handler, at a concrete
error. -/
theorem panic_policy_single_slot_witness :
    bshHandled.fnErr = some 5 ∧
    bshHandled.Panic (GoError.plain "boom") =
      (Except.ok (), [Event.handlerCalled 5 (GoError.plain "boom")]) ∧
    bshPlain.fnErr = none ∧
    bshPlain.Panic (GoError.plain "boom") =
      (Except.error (GoError.plain "boom"), [Event.panicked (GoError.plain "boom")]) :=
  ⟨rfl, (panic_policy_single_slot bshHandled (GoError.plain "boom") 5 none).1 rfl,
    rfl, (panic_policy_single_slot bshPlain (GoError.plain "boom") 5 none).2.1 rfl⟩

/-! Claim C5. -/

/-- C5: the Shell-Delegated Strategy spawns exactly the shell interpreter
binary "bash" with the two fixed arguments "-c" and the raw command string
verbatim; it performs no tokenization of raw (its outcome is unchanged
under any replacement of the parse collaborator); and the working
directory, extra environment and the three stream bindings are passed to
its spawn exactly as the Direct Strategy passes them to its own. -/
theorem bash_fixed_argv_passthrough (c : Command) (o : Oracle) :
    spawnsOf (c.bash o).events =
      [{ exe := "bash", args := ["-c", c.raw], dir := c.dir, env := envFor o c,
         stdin := c.inp, stdout := c.out, stderr := c.err }] ∧
    (∀ o2 : Oracle, o2.waitResult = o.waitResult → o2.writes = o.writes →
        o2.ambientEnv = o.ambientEnv → c.bash o2 = c.bash o) ∧
    (∀ args, o.parse c.raw = Except.ok args →
        spawnsOf (c.run o).events =
          [{ exe := args.headD "", args := args.tail, dir := c.dir, env := envFor o c,
             stdin := c.inp, stdout := c.out, stderr := c.err }]) := by
  refine ⟨spawnsOf_bash c o, fun o2 h1 h2 h3 => ?_,
    fun args hp => spawnsOf_run_ok c o args hp⟩
  have hsp : bashSp c o2 = bashSp c o := by
    unfold bashSp envFor
    rw [h3]
  unfold Command.bash wroteEvs
  rw [hsp, h1, h2]

/-- C5 witness: both strategies applied to the same configured command; the
shell spawn carries `-c` plus the raw string, the direct spawn the parsed
argv, with identical dir, env and stream bindings. -/
theorem bash_fixed_argv_passthrough_witness :
    oracleExit3.parse cmdSink.raw = Except.ok ["ls", "-l"] ∧
    spawnsOf (cmdSink.bash oracleExit3).events =
      [{ exe := "bash", args := ["-c", "ls -l"], dir := "/tmp", env := none,
         stdin := ⟨"stdin"⟩, stdout := Writer.named "stdout",
         stderr := Writer.named "stderr" }] ∧
    spawnsOf (cmdSink.run oracleExit3).events =
      [{ exe := "ls", args := ["-l"], dir := "/tmp", env := none,
         stdin := ⟨"stdin"⟩, stdout := Writer.named "stdout",
         stderr := Writer.named "stderr" }] :=
  ⟨rfl, (bash_fixed_argv_passthrough cmdSink oracleExit3).1,
    (bash_fixed_argv_passthrough cmdSink oracleExit3).2.2 ["ls", "-l"] rfl⟩

/-! Claim C7. -/

theorem builderContent_run_ok (c : Command) (o : Oracle) (args : List String)
    (hp : o.parse c.raw = Except.ok args) :
    builderContent (c.withOutErrBuilder.run o).events =
      combinedWrites o (runSp c.withOutErrBuilder o args) := by
  rw [run_parse_ok c.withOutErrBuilder o args hp]
  simp [builderContent_append, builderContent_verboseEvs, builderContent_envLogEvs,
    builderContent_sinkEvs,
    builderContent_wroteEvs_builder o (runSp c.withOutErrBuilder o args) rfl rfl,
    String.append_empty, String.empty_append]

theorem builderContent_bash (c : Command) (o : Oracle) :
    builderContent (c.withOutErrBuilder.bash o).events =
      combinedWrites o (bashSp c.withOutErrBuilder o) := by
  unfold Command.bash
  simp [builderContent_append, builderContent_verboseEvs, builderContent_envLogEvs,
    builderContent_sinkEvs,
    builderContent_wroteEvs_builder o (bashSp c.withOutErrBuilder o) rfl rfl,
    String.append_empty, String.empty_append]

theorem runStr_ok_content (c : Command) (o : Oracle) (s : String)
    (h : (c.RunStr o).1 = Except.ok s) :
    s = builderContent (c.withOutErrBuilder.run o).events := by
  simp only [Command.RunStr] at h
  rcases hr : (c.withOutErrBuilder.run o).err with _ | e
  · rw [hr] at h
    exact (Except.ok.injEq .. ▸ h).symm
  · rw [hr] at h
    rcases hq : (c.b.Panic e).1 with e2 | uu
    · simp [hq] at h
    · simp [hq] at h
      exact h.symm

theorem bashStr_ok_content (c : Command) (o : Oracle) (s : String)
    (h : (c.BashStr o).1 = Except.ok s) :
    s = builderContent (c.withOutErrBuilder.bash o).events := by
  simp only [Command.BashStr] at h
  rcases hr : (c.withOutErrBuilder.bash o).err with _ | e
  · rw [hr] at h
    exact (Except.ok.injEq .. ▸ h).symm
  · rw [hr] at h
    rcases hq : (c.b.Panic e).1 with e2 | uu
    · simp [hq] at h
    · simp [hq] at h
      exact h.symm

theorem spawnsOf_RunStr (c : Command) (o : Oracle) :
    spawnsOf (c.RunStr o).2 = spawnsOf (c.withOutErrBuilder.run o).events := by
  simp only [Command.RunStr]
  rcases hr : (c.withOutErrBuilder.run o).err with _ | e
  · rfl
  · rcases hq : (c.b.Panic e).1 with e2 | uu <;>
      simp [hq, spawnsOf_panic]

theorem spawnsOf_BashStr (c : Command) (o : Oracle) :
    spawnsOf (c.BashStr o).2 = spawnsOf (c.withOutErrBuilder.bash o).events := by
  simp only [Command.BashStr]
  rcases hr : (c.withOutErrBuilder.bash o).err with _ | e
  · rfl
  · rcases hq : (c.b.Panic e).1 with e2 | uu <;>
      simp [hq, spawnsOf_panic]

/-- C7: the captured-text projections rebind both stdout and stderr to the
one shared in-memory accumulator before execution — the spawn's two output
bindings are both the builder, overriding whatever `c.out`/`c.err` held —
and whenever the projection returns a string it is the accumulator's
combined content: the concatenation of every chunk the child wrote to
either stream. -/
theorem capturedText_shared_accumulator (c : Command) (o : Oracle) :
    (∀ args, o.parse c.raw = Except.ok args →
        spawnsOf (c.RunStr o).2 =
          [{ exe := args.headD "", args := args.tail, dir := c.dir, env := envFor o c,
             stdin := c.inp, stdout := Writer.builder, stderr := Writer.builder }] ∧
        ∀ s, (c.RunStr o).1 = Except.ok s →
          s = combinedWrites o (runSp c.withOutErrBuilder o args)) ∧
    spawnsOf (c.BashStr o).2 =
      [{ exe := "bash", args := ["-c", c.raw], dir := c.dir, env := envFor o c,
         stdin := c.inp, stdout := Writer.builder, stderr := Writer.builder }] ∧
    (∀ s, (c.BashStr o).1 = Except.ok s →
        s = combinedWrites o (bashSp c.withOutErrBuilder o)) := by
  refine ⟨fun args hp => ⟨?_, fun s hok => ?_⟩, ?_, fun s hok => ?_⟩
  · exact (spawnsOf_RunStr c o).trans (spawnsOf_run_ok c.withOutErrBuilder o args hp)
  · exact (runStr_ok_content c o s hok).trans (builderContent_run_ok c o args hp)
  · exact (spawnsOf_BashStr c o).trans (spawnsOf_bash c.withOutErrBuilder o)
  · exact (bashStr_ok_content c o s hok).trans (builderContent_bash c o)

/-- C7 witness: a handler-bearing command whose child writes "hi " to stdout
and "oops" to stderr and exits 3: RunStr returns the combined text. -/
theorem capturedText_shared_accumulator_witness :
    oracleExit3.parse cmdHandled.raw = Except.ok ["ls", "-l"] ∧
    spawnsOf (cmdHandled.RunStr oracleExit3).2 =
      [{ exe := "ls", args := ["-l"], dir := "/tmp", env := none,
         stdin := ⟨"stdin"⟩, stdout := Writer.builder, stderr := Writer.builder }] ∧
    (cmdHandled.RunStr oracleExit3).1 = Except.ok "hi oops" ∧
    "hi oops" = combinedWrites oracleExit3
      (runSp cmdHandled.withOutErrBuilder oracleExit3 ["ls", "-l"]) :=
  ⟨rfl,
    ((capturedText_shared_accumulator cmdHandled oracleExit3).1 ["ls", "-l"] rfl).1,
    rfl,
    ((capturedText_shared_accumulator cmdHandled oracleExit3).1 ["ls", "-l"] rfl).2
      "hi oops" rfl⟩

/-! Claim C10. -/

/-- C10: when a custom error handler is installed (and, as the policy
assumes, returns), a failing execution consumed through a captured-text
projection still returns the text accumulated in the shared builder up to
the failure, instead of aborting or returning a distinguished error
value. -/
theorem capturedText_returns_after_handler (c : Command) (o : Oracle) (h : Nat)
    (hfn : c.b.fnErr = some h) :
    (∀ e, (c.withOutErrBuilder.run o).err = some e →
        (c.RunStr o).1 =
          Except.ok (builderContent (c.withOutErrBuilder.run o).events)) ∧
    (∀ e, (c.withOutErrBuilder.bash o).err = some e →
        (c.BashStr o).1 =
          Except.ok (builderContent (c.withOutErrBuilder.bash o).events)) := by
  constructor
  · intro e he
    simp only [Command.RunStr]
    rw [he]
    simp [Bsh.Panic, hfn]
  · intro e he
    simp only [Command.BashStr]
    rw [he]
    simp [Bsh.Panic, hfn]

/-- C10 witness: handler installed, spawn fails to start; RunStr returns the
(empty) accumulated text rather than a fault. -/
theorem capturedText_returns_after_handler_witness :
    cmdHandled.b.fnErr = some 5 ∧
    (cmdHandled.withOutErrBuilder.run oracleStartFail).err =
      some (GoError.plain "executable not found") ∧
    (cmdHandled.RunStr oracleStartFail).1 = Except.ok "" :=
  ⟨rfl, rfl,
    (capturedText_returns_after_handler cmdHandled oracleStartFail 5 rfl).1
      (GoError.plain "executable not found") rfl⟩

/-! Claim C8. -/

/-- C8 counterexample: `OutErr` mutates two fields, not exactly one: at a
command whose stdout and stderr bindings both differ from the new writer,
both fields change. -/
theorem outErr_mutates_two_fields_cex :
    (cmdSink.OutErr (Writer.named "w")).out ≠ cmdSink.out ∧
    (cmdSink.OutErr (Writer.named "w")).err ≠ cmdSink.err :=
  ⟨by decide, by decide⟩

/-- C8 (amended): each configuration method rewrites exactly the field(s) it
stands for and leaves every other field unchanged — exactly one field for
`In`, `Out`, `Err`, `Env`, `Dir`, `ExitStatus` and `ExpandEnv`, and exactly
two fields (stdout and stderr, both to the same writer) for `OutErr`. -/
theorem config_methods_frame (c : Command) (r : Reader) (w : Writer)
    (vars : List String) (d : String) (n : Option Nat) (f : String → String) :
    ((c.In r).inp = r ∧ (c.In r).raw = c.raw ∧ (c.In r).dir = c.dir ∧
      (c.In r).env = c.env ∧ (c.In r).out = c.out ∧ (c.In r).err = c.err ∧
      (c.In r).exitStatus = c.exitStatus ∧ (c.In r).b = c.b) ∧
    ((c.Out w).out = w ∧ (c.Out w).raw = c.raw ∧ (c.Out w).dir = c.dir ∧
      (c.Out w).env = c.env ∧ (c.Out w).inp = c.inp ∧ (c.Out w).err = c.err ∧
      (c.Out w).exitStatus = c.exitStatus ∧ (c.Out w).b = c.b) ∧
    ((c.Err w).err = w ∧ (c.Err w).raw = c.raw ∧ (c.Err w).dir = c.dir ∧
      (c.Err w).env = c.env ∧ (c.Err w).inp = c.inp ∧ (c.Err w).out = c.out ∧
      (c.Err w).exitStatus = c.exitStatus ∧ (c.Err w).b = c.b) ∧
    ((c.OutErr w).out = w ∧ (c.OutErr w).err = w ∧ (c.OutErr w).raw = c.raw ∧
      (c.OutErr w).dir = c.dir ∧ (c.OutErr w).env = c.env ∧
      (c.OutErr w).inp = c.inp ∧ (c.OutErr w).exitStatus = c.exitStatus ∧
      (c.OutErr w).b = c.b) ∧
    ((c.Env vars).env = c.env ++ vars ∧ (c.Env vars).raw = c.raw ∧
      (c.Env vars).dir = c.dir ∧ (c.Env vars).inp = c.inp ∧
      (c.Env vars).out = c.out ∧ (c.Env vars).err = c.err ∧
      (c.Env vars).exitStatus = c.exitStatus ∧ (c.Env vars).b = c.b) ∧
    ((c.Dir d).dir = d ∧ (c.Dir d).raw = c.raw ∧ (c.Dir d).env = c.env ∧
      (c.Dir d).inp = c.inp ∧ (c.Dir d).out = c.out ∧ (c.Dir d).err = c.err ∧
      (c.Dir d).exitStatus = c.exitStatus ∧ (c.Dir d).b = c.b) ∧
    ((c.ExitStatus n).exitStatus = n ∧ (c.ExitStatus n).raw = c.raw ∧
      (c.ExitStatus n).dir = c.dir ∧ (c.ExitStatus n).env = c.env ∧
      (c.ExitStatus n).inp = c.inp ∧ (c.ExitStatus n).out = c.out ∧
      (c.ExitStatus n).err = c.err ∧ (c.ExitStatus n).b = c.b) ∧
    ((c.ExpandEnv f).raw = f c.raw ∧ (c.ExpandEnv f).dir = c.dir ∧
      (c.ExpandEnv f).env = c.env ∧ (c.ExpandEnv f).inp = c.inp ∧
      (c.ExpandEnv f).out = c.out ∧ (c.ExpandEnv f).err = c.err ∧
      (c.ExpandEnv f).exitStatus = c.exitStatus ∧ (c.ExpandEnv f).b = c.b) :=
  ⟨⟨rfl, rfl, rfl, rfl, rfl, rfl, rfl, rfl⟩,
   ⟨rfl, rfl, rfl, rfl, rfl, rfl, rfl, rfl⟩,
   ⟨rfl, rfl, rfl, rfl, rfl, rfl, rfl, rfl⟩,
   ⟨rfl, rfl, rfl, rfl, rfl, rfl, rfl, rfl⟩,
   ⟨rfl, rfl, rfl, rfl, rfl, rfl, rfl, rfl⟩,
   ⟨rfl, rfl, rfl, rfl, rfl, rfl, rfl, rfl⟩,
   ⟨rfl, rfl, rfl, rfl, rfl, rfl, rfl, rfl⟩,
   ⟨rfl, rfl, rfl, rfl, rfl, rfl, rfl, rfl⟩⟩

end BshModel
